import Mathlib

/-!
Shallow embedding of `src/ceph-volume/ceph_volume/devices/lvm/prepare.py`.

The program provisions an OSD: it allocates an identity (fsid, numeric id,
secrets), resolves the `--journal` argument to a logical or physical volume,
writes a tag set to both the journal and the data volume, and then runs the
filestore side-effect sequence (mkdir, format, mount, symlink, monmap,
mkfs, keyring).

Every call to an external collaborator (generators, the LVM catalog, the
filesystem/mount helpers) is recorded as an `Event` in a trace.  The
environment `Env` supplies the collaborators' answers; its `fails` oracle
says which mutating collaborator calls raise, modelling the unstructured
propagation of external failures.  Each embedded function returns the trace
of collaborator calls that completed together with an `Except` outcome,
mirroring Python exception propagation.
-/

deriving instance DecidableEq for Except

namespace CephVolume

/-- An LVM logical volume handle as returned by `api.get_lv`. -/
structure LogicalVolume where
  lv_name : String
  vg_name : String
  lv_path : String
  lv_uuid : String
  deriving DecidableEq, Repr

/-- An LVM physical volume handle as returned by `api.get_pv`.  A `pv_uuid`
of `""` models an unpopulated (falsy) uuid. -/
structure PhysicalVolume where
  pv_name : String
  pv_uuid : String
  deriving DecidableEq, Repr

/-- The duck-typed `journal_lvm` value of `Prepare.prepare`: either a
logical volume or a physical volume, uniformly carrying `set_tags`. -/
inductive Target where
  | lv (handle : LogicalVolume)
  | pv (handle : PhysicalVolume)
  deriving DecidableEq, Repr

/-- One external collaborator call made by the program. -/
inductive Event where
  | createKey
  | generateUuid
  | createId (fsid serialized : String)
  | getLv (lv_name vg_name : String)
  | getPv (pv_name : String)
  | createPv (pv_name : String)
  | setTags (target : Target) (tags : List (String × String))
  | createPath (osd_id : String)
  | formatDevice (device : String)
  | mountOsd (device osd_id : String)
  | linkJournal (journal osd_id : String)
  | getMonmap (osd_id : String)
  | osdMkfs (osd_id fsid : String)
  | writeKeyring (osd_id : String) (secret : String)
  deriving DecidableEq, Repr

/-- The ways a run can raise.  The named constructors correspond to the
`raise` sites of `prepare.py`; `stepFailed e` is an unstructured failure of
the external collaborator call `e`. -/
inductive Err where
  | invalidDeviceError (arg : String)
  | missingDataVolumeError (arg : String)
  | missingJournalError
  | unsupportedBackendError
  | splitUnpackError (arg : String)
  | attributeError
  | stepFailed (e : Event)
  deriving DecidableEq, Repr

/-- The external collaborators (spec section 6).  `get_pv_after` is the
catalog's answer to `api.get_pv` after `api.create_pv` has run, modelling
the catalog mutation performed by physical-volume creation. -/
structure Env where
  create_key : String
  generate_uuid : String
  create_id : String → String → String
  get_lv : String → String → Option LogicalVolume
  get_pv : String → Option PhysicalVolume
  get_pv_after : String → Option PhysicalVolume
  cluster_fsid : String
  fails : Event → Bool

/-- The parsed CLI arguments consumed by `Prepare.prepare`. -/
structure Args where
  data : String
  journal : Option String
  osd_id : Option String
  osd_fsid : Option String
  filestore : Bool
  bluestore : Bool
  deriving DecidableEq, Repr

/-- Python truthiness of an optional string: `None` and `""` are falsy. -/
def pyFalsy : Option String → Bool
  | none => true
  | some s => s == ""

/-- Python `str.split` with a one-character separator. -/
def splitOnChar (c : Char) : List Char → List (List Char)
  | [] => [[]]
  | x :: xs =>
    if x = c then [] :: splitOnChar c xs
    else
      match splitOnChar c xs with
      | [] => [[x]]
      | y :: ys => (x :: y) :: ys

/-- Python `s.split('/')` followed by a two-element unpack
(`vg_name, lv_name = s.split('/')`): `some (vg_name, lv_name)` when `s`
contains exactly one `'/'`, otherwise the unpack raises (`none`). -/
def split2 (s : String) : Option (String × String) :=
  match (splitOnChar '/' s.data).map String.mk with
  | [a, b] => some (a, b)
  | _ => none

/-- Serialized JSON entries of a string-to-string mapping. -/
def jsonEntries : List (String × String) → String
  | [] => ""
  | [(k, v)] => "\"" ++ k ++ "\": \"" ++ v ++ "\""
  | (k, v) :: rest => "\"" ++ k ++ "\": \"" ++ v ++ "\", " ++ jsonEntries rest

/-- `json.dumps` of a string-to-string mapping. -/
def json_dumps (m : List (String × String)) : String :=
  "\x7b" ++ jsonEntries m ++ "\x7d"

/-- `fsid = supplied or system.generate_uuid()` (prepare.py lines 24, 94):
keeps a truthy supplied fsid, otherwise calls the UUID generator. -/
def allocate_fsid (env : Env) (osd_fsid : Option String) : List Event × String :=
  match osd_fsid with
  | some s => if s = "" then ([Event.generateUuid], env.generate_uuid) else ([], s)
  | none => ([Event.generateUuid], env.generate_uuid)

/-- `osd_id = supplied or prepare_utils.create_id(fsid, json_secrets)`
(prepare.py lines 26, 96): keeps a truthy supplied id, otherwise calls the
external numeric-id allocator. -/
def allocate_id (env : Env) (osd_id : Option String) (fsid json_secrets : String) :
    List Event × String :=
  match osd_id with
  | some s =>
    if s = "" then ([Event.createId fsid json_secrets], env.create_id fsid json_secrets)
    else ([], s)
  | none => ([Event.createId fsid json_secrets], env.create_id fsid json_secrets)

/-- `Prepare.get_journal_lv` (prepare.py lines 72-83): split the argument
as `vg/lv`; on an unpack failure return `None`, otherwise query the catalog
for the logical volume. -/
def get_journal_lv (env : Env) (argument : String) : List Event × Option LogicalVolume :=
  match split2 argument with
  | none => ([], none)
  | some (vg_name, lv_name) =>
    ([Event.getLv lv_name vg_name], env.get_lv lv_name vg_name)

/-- `Prepare.get_journal_pv` (prepare.py lines 54-70): look the argument up
as a physical volume; reuse it when its uuid is populated, otherwise create
it as a pv and re-query; raise when the catalog does not know the name.
The `Option` in the result models that the re-query's answer is returned
as-is (Python may return `None` here). -/
def get_journal_pv (env : Env) (argument : String) :
    List Event × Except Err (Option PhysicalVolume) :=
  match env.get_pv argument with
  | some device =>
    if device.pv_uuid ≠ "" then
      ([Event.getPv argument], Except.ok (some device))
    else if env.fails (Event.createPv argument) then
      ([Event.getPv argument], Except.error (Err.stepFailed (Event.createPv argument)))
    else
      ([Event.getPv argument, Event.createPv argument, Event.getPv argument],
        Except.ok (env.get_pv_after argument))
  | none =>
    ([Event.getPv argument], Except.error (Err.invalidDeviceError argument))

/-- Journal resolution as performed inline by `Prepare.prepare`
(prepare.py lines 109-124): try `get_journal_lv`; on success project the
handle to `(journal_lvm, journal_device, journal_uuid)`; otherwise fall
back to `get_journal_pv` and project the physical volume.  A `None`
physical volume makes the projection raise (`attributeError`), as the
attribute accesses on line 123-124 would. -/
def resolve_journal (env : Env) (argument : String) :
    List Event × Except Err (Target × String × String) :=
  let l := get_journal_lv env argument
  match l.2 with
  | some journal_lv =>
    (l.1, Except.ok (Target.lv journal_lv, journal_lv.lv_path, journal_lv.lv_uuid))
  | none =>
    let p := get_journal_pv env argument
    match p.2 with
    | Except.error e => (l.1 ++ p.1, Except.error e)
    | Except.ok none => (l.1 ++ p.1, Except.error Err.attributeError)
    | Except.ok (some journal_pv) =>
      (l.1 ++ p.1, Except.ok (Target.pv journal_pv, journal_pv.pv_name, journal_pv.pv_uuid))

/-- The tag dictionary written to the journal volume (prepare.py lines
126-135). -/
def journalTagSet (fsid osd_id cluster_fsid journal_device journal_uuid
    data_device data_uuid : String) : List (String × String) :=
  [("ceph.type", "journal"),
   ("ceph.osd_fsid", fsid),
   ("ceph.osd_id", osd_id),
   ("ceph.cluster_fsid", cluster_fsid),
   ("ceph.journal_device", journal_device),
   ("ceph.journal_uuid", journal_uuid),
   ("ceph.data_device", data_device),
   ("ceph.data_uuid", data_uuid)]

/-- The tag dictionary written to the data volume (prepare.py lines
137-146). -/
def dataTagSet (fsid osd_id cluster_fsid journal_device journal_uuid
    data_device data_uuid : String) : List (String × String) :=
  [("ceph.type", "data"),
   ("ceph.osd_fsid", fsid),
   ("ceph.osd_id", osd_id),
   ("ceph.cluster_fsid", cluster_fsid),
   ("ceph.journal_device", journal_device),
   ("ceph.journal_uuid", journal_uuid),
   ("ceph.data_device", data_device),
   ("ceph.data_uuid", data_uuid)]

/-- The two `set_tags` calls of `Prepare.prepare` (prepare.py lines
126-146): first `journal_lvm.set_tags(...)`, then `data_lv.set_tags(...)`;
a failure of either write aborts the run there. -/
def write_tag_pair (env : Env) (journal_lvm : Target)
    (journal_device journal_uuid : String) (data_lv : LogicalVolume)
    (fsid osd_id cluster_fsid : String) : List Event × Except Err Unit :=
  let jtags := journalTagSet fsid osd_id cluster_fsid journal_device journal_uuid
    data_lv.lv_path data_lv.lv_uuid
  if env.fails (Event.setTags journal_lvm jtags) then
    ([], Except.error (Err.stepFailed (Event.setTags journal_lvm jtags)))
  else
    let dtags := dataTagSet fsid osd_id cluster_fsid journal_device journal_uuid
      data_lv.lv_path data_lv.lv_uuid
    if env.fails (Event.setTags (Target.lv data_lv) dtags) then
      ([Event.setTags journal_lvm jtags],
        Except.error (Err.stepFailed (Event.setTags (Target.lv data_lv) dtags)))
    else
      ([Event.setTags journal_lvm jtags, Event.setTags (Target.lv data_lv) dtags],
        Except.ok ())

/-- Run a list of external side-effect calls in order, stopping at the
first one the environment makes fail. -/
def runSteps (env : Env) : List Event → List Event × Except Err Unit
  | [] => ([], Except.ok ())
  | e :: rest =>
    if env.fails e then ([], Except.error (Err.stepFailed e))
    else
      let r := runSteps env rest
      (e :: r.1, r.2)

/-- The seven side-effecting collaborator calls of `prepare_filestore`
(prepare.py lines 28-40), in source order. -/
def filestoreSteps (device journal osd_id fsid cephx_secret : String) : List Event :=
  [Event.createPath osd_id,
   Event.formatDevice device,
   Event.mountOsd device osd_id,
   Event.linkJournal journal osd_id,
   Event.getMonmap osd_id,
   Event.osdMkfs osd_id fsid,
   Event.writeKeyring osd_id cephx_secret]

/-- `prepare_filestore` (prepare.py lines 12-40).  `secrets.get(...)`'s
default argument `create_key()` is evaluated eagerly, hence the
unconditional `createKey` event. -/
def prepare_filestore (env : Env) (device journal : String)
    (secrets : List (String × String)) (id_ : Option String) (fsid_arg : Option String) :
    List Event × Except Err Unit :=
  let cephx_secret := (secrets.lookup "cephx_secret").getD env.create_key
  let json_secrets := json_dumps secrets
  let f := allocate_fsid env fsid_arg
  let i := allocate_id env id_ f.2 json_secrets
  let s := runSteps env (filestoreSteps device journal i.2 f.2 cephx_secret)
  (Event.createKey :: (f.1 ++ i.1 ++ s.1), s.2)

/-- `secrets = {'cephx_secret': prepare_utils.create_key()}`
(prepare.py line 91). -/
def prepSecrets (env : Env) : List (String × String) :=
  [("cephx_secret", env.create_key)]

/-- The fsid used by `Prepare.prepare` (line 94). -/
def prepFsid (env : Env) (args : Args) : String :=
  (allocate_fsid env args.osd_fsid).2

/-- The osd id used by `Prepare.prepare` (line 96). -/
def prepOsdId (env : Env) (args : Args) : String :=
  (allocate_id env args.osd_id (prepFsid env args) (json_dumps (prepSecrets env))).2

/-- The collaborator calls `Prepare.prepare` makes before splitting
`--data` (lines 91-96): the secret generation and the identity
allocation. -/
def prepPre (env : Env) (args : Args) : List Event :=
  Event.createKey ::
    ((allocate_fsid env args.osd_fsid).1 ++
      (allocate_id env args.osd_id (prepFsid env args) (json_dumps (prepSecrets env))).1)

/-- The tail of the filestore branch of `Prepare.prepare` once the data
volume is known and `--journal` is present (prepare.py lines 109-154):
resolve the journal, write the tag pair, then run `prepare_filestore`. -/
def prepareFilestoreBranch (env : Env) (args : Args) (vg_name lv_name : String)
    (data_lv : LogicalVolume) (jarg : String) : List Event × Except Err Unit :=
  let r := resolve_journal env jarg
  match r.2 with
  | Except.error e =>
    (prepPre env args ++ [Event.getLv lv_name vg_name] ++ r.1, Except.error e)
  | Except.ok (journal_lvm, journal_device, journal_uuid) =>
    let t := write_tag_pair env journal_lvm journal_device journal_uuid data_lv
      (prepFsid env args) (prepOsdId env args) env.cluster_fsid
    match t.2 with
    | Except.error e =>
      (prepPre env args ++ [Event.getLv lv_name vg_name] ++ r.1 ++ t.1, Except.error e)
    | Except.ok _ =>
      let p := prepare_filestore env data_lv.lv_path journal_device (prepSecrets env)
        (some (prepOsdId env args)) (some (prepFsid env args))
      (prepPre env args ++ [Event.getLv lv_name vg_name] ++ r.1 ++ t.1 ++ p.1, p.2)

/-- `Prepare.prepare` (prepare.py lines 86-156): allocate secrets and
identity, split `--data` (an unpack error if it is not `vg/lv`), then on
the filestore path require the data lv and `--journal`, resolve the
journal, tag both volumes and run `prepare_filestore`; on the bluestore
path raise the unsupported-backend error; with neither flag do nothing. -/
def prepare (env : Env) (args : Args) : List Event × Except Err Unit :=
  match split2 args.data with
  | none => (prepPre env args, Except.error (Err.splitUnpackError args.data))
  | some (vg_name, lv_name) =>
    if args.filestore then
      match env.get_lv lv_name vg_name with
      | none =>
        (prepPre env args ++ [Event.getLv lv_name vg_name],
          Except.error (Err.missingDataVolumeError args.data))
      | some data_lv =>
        if pyFalsy args.journal then
          (prepPre env args ++ [Event.getLv lv_name vg_name],
            Except.error Err.missingJournalError)
        else
          prepareFilestoreBranch env args vg_name lv_name data_lv (args.journal.getD "")
    else if args.bluestore then
      (prepPre env args, Except.error Err.unsupportedBackendError)
    else
      (prepPre env args, Except.ok ())


/-- Claim C3's per-call property: every collaborator call uses exactly the
supplied id `i` and fsid `f`, and the UUID generator and the numeric-id
allocator are never invoked. -/
def identityOk (i f : String) : Event → Prop
  | Event.generateUuid => False
  | Event.createId _ _ => False
  | Event.setTags _ tags =>
    List.lookup "ceph.osd_fsid" tags = some f ∧ List.lookup "ceph.osd_id" tags = some i
  | Event.createPath x => x = i
  | Event.mountOsd _ x => x = i
  | Event.linkJournal _ x => x = i
  | Event.getMonmap x => x = i
  | Event.osdMkfs x y => x = i ∧ y = f
  | Event.writeKeyring x _ => x = i
  | _ => True

/-- Concrete data volume used by the witness runs. -/
def lvData : LogicalVolume :=
  { lv_name := "lv0", vg_name := "vg0", lv_path := "/dev/vg0/lv0", lv_uuid := "LVUUID0" }

/-- Concrete journal logical volume used by the witness runs. -/
def lvJournal : LogicalVolume :=
  { lv_name := "lv1", vg_name := "vg0", lv_path := "/dev/vg0/lv1", lv_uuid := "LVUUID1" }

/-- A physical volume whose uuid is still unpopulated. -/
def pvBlank : PhysicalVolume := { pv_name := "/dev/sdb", pv_uuid := "" }

/-- The same physical volume after `create_pv` has registered it. -/
def pvReady : PhysicalVolume := { pv_name := "/dev/sdb", pv_uuid := "PVUUID" }

/-- A well-behaved environment: the catalog knows `vg0/lv0` and `vg0/lv1`,
no physical volumes, and no collaborator call fails. -/
def baseEnv : Env :=
  { create_key := "KEY"
    generate_uuid := "UUID-GEN"
    create_id := fun _ _ => "3"
    get_lv := fun l v =>
      if v = "vg0" ∧ l = "lv0" then some lvData
      else if v = "vg0" ∧ l = "lv1" then some lvJournal
      else none
    get_pv := fun _ => none
    get_pv_after := fun _ => none
    cluster_fsid := "CLUSTER"
    fails := fun _ => false }

/-- `baseEnv` with `/dev/sdb` known as a pv without a uuid, populated once
`create_pv` has run. -/
def envPv : Env :=
  { baseEnv with
    get_pv := fun n => if n = "/dev/sdb" then some pvBlank else none
    get_pv_after := fun n => if n = "/dev/sdb" then some pvReady else none }

/-- `baseEnv` with a failing mount collaborator. -/
def envFailMount : Env :=
  { baseEnv with
    fails := fun e =>
      match e with
      | Event.mountOsd _ _ => true
      | _ => false }

/-- `baseEnv` in which writing a `ceph.type = data` tag set fails. -/
def envFailDataTags : Env :=
  { baseEnv with
    fails := fun e =>
      match e with
      | Event.setTags _ tags => List.lookup "ceph.type" tags == some "data"
      | _ => false }

/-- `baseEnv` with an empty logical-volume catalog. -/
def envNoLv : Env := { baseEnv with get_lv := fun _ _ => none }

/-- A fully supplied filestore invocation: data `vg0/lv0`, journal
`vg0/lv1`, osd id `1`, osd fsid `F`. -/
def argsOk : Args :=
  { data := "vg0/lv0", journal := some "vg0/lv1", osd_id := some "1",
    osd_fsid := some "F", filestore := true, bluestore := false }

/-- `argsOk` with a plain-disk journal argument. -/
def argsPlainJournal : Args := { argsOk with journal := some "/dev/sdb" }

/-- `argsOk` without `--journal`. -/
def argsNoJournal : Args := { argsOk with journal := none }

/-- A bluestore invocation. -/
def argsBlue : Args := { argsOk with filestore := false, bluestore := true }

/-- A filestore invocation whose `--data` has no `/` separator and no
supplied identity. -/
def argsBadData : Args :=
  { data := "sdb", journal := some "vg0/lv1", osd_id := none,
    osd_fsid := none, filestore := true, bluestore := false }

/-- Catalog mutations and filesystem side effects: everything except the
generators and the read-only catalog queries. -/
def Event.isMutation : Event → Bool
  | Event.createPv _ => true
  | Event.setTags _ _ => true
  | Event.createPath _ => true
  | Event.formatDevice _ => true
  | Event.mountOsd _ _ => true
  | Event.linkJournal _ _ => true
  | Event.getMonmap _ => true
  | Event.osdMkfs _ _ => true
  | Event.writeKeyring _ _ => true
  | _ => false

/-- Physical-volume catalog calls (lookup or creation). -/
def Event.isPvCall : Event → Bool
  | Event.getPv _ => true
  | Event.createPv _ => true
  | _ => false

theorem allocate_fsid_mem (env : Env) (o : Option String) (e : Event)
    (he : e ∈ (allocate_fsid env o).1) : e = Event.generateUuid := by
  cases o with
  | none => simpa [allocate_fsid] using he
  | some s =>
    by_cases h : s = ""
    · simp [allocate_fsid, h] at he
      simp [he]
    · simp [allocate_fsid, h] at he

theorem allocate_id_mem (env : Env) (o : Option String) (f j : String) (e : Event)
    (he : e ∈ (allocate_id env o f j).1) : e = Event.createId f j := by
  cases o with
  | none => simpa [allocate_id] using he
  | some s =>
    by_cases h : s = ""
    · simp [allocate_id, h] at he
      simp [he]
    · simp [allocate_id, h] at he

theorem allocate_fsid_supplied (env : Env) (s : String) (h : s ≠ "") :
    allocate_fsid env (some s) = ([], s) := by
  simp [allocate_fsid, h]

theorem allocate_id_supplied (env : Env) (s f j : String) (h : s ≠ "") :
    allocate_id env (some s) f j = ([], s) := by
  simp [allocate_id, h]

theorem prepPre_mem (env : Env) (args : Args) (e : Event)
    (he : e ∈ prepPre env args) :
    e = Event.createKey ∨ e = Event.generateUuid ∨ ∃ a b, e = Event.createId a b := by
  simp only [prepPre, List.mem_cons, List.mem_append] at he
  rcases he with h | h | h
  · exact Or.inl h
  · exact Or.inr (Or.inl (allocate_fsid_mem env _ e h))
  · exact Or.inr (Or.inr ⟨_, _, allocate_id_mem env _ _ _ e h⟩)

theorem get_journal_lv_mem (env : Env) (a : String) (e : Event)
    (he : e ∈ (get_journal_lv env a).1) : ∃ l v, e = Event.getLv l v := by
  unfold get_journal_lv at he
  rcases h : split2 a with _ | ⟨vg, lv⟩ <;> rw [h] at he
  · simp at he
  · simp at he
    exact ⟨lv, vg, he⟩

theorem get_journal_pv_mem (env : Env) (a : String) (e : Event)
    (he : e ∈ (get_journal_pv env a).1) :
    (∃ n, e = Event.getPv n) ∨ (∃ n, e = Event.createPv n) := by
  unfold get_journal_pv at he
  rcases h : env.get_pv a with _ | d <;> rw [h] at he
  · simp at he; exact Or.inl ⟨a, he⟩
  · by_cases hu : d.pv_uuid ≠ "" <;> simp [hu] at he
    · exact Or.inl ⟨a, he⟩
    · by_cases hf : env.fails (Event.createPv a) <;> simp [hf] at he
      · exact Or.inl ⟨a, he⟩
      · rcases he with h1 | h1 | h1
        · exact Or.inl ⟨a, h1⟩
        · exact Or.inr ⟨a, h1⟩
        · exact Or.inl ⟨a, h1⟩

theorem resolve_journal_mem (env : Env) (a : String) (e : Event)
    (he : e ∈ (resolve_journal env a).1) :
    (∃ l v, e = Event.getLv l v) ∨ (∃ n, e = Event.getPv n) ∨ (∃ n, e = Event.createPv n) := by
  simp only [resolve_journal] at he
  rcases h : (get_journal_lv env a).2 with _ | jlv <;> simp only [h] at he
  · rcases h2 : (get_journal_pv env a).2 with er | op <;> simp only [h2] at he
    · rcases List.mem_append.mp he with h1 | h1
      · exact Or.inl (get_journal_lv_mem env a e h1)
      · exact Or.inr (get_journal_pv_mem env a e h1)
    · rcases op with _ | pv <;> simp only [] at he <;>
        rcases List.mem_append.mp he with h1 | h1
      · exact Or.inl (get_journal_lv_mem env a e h1)
      · exact Or.inr (get_journal_pv_mem env a e h1)
      · exact Or.inl (get_journal_lv_mem env a e h1)
      · exact Or.inr (get_journal_pv_mem env a e h1)
  · exact Or.inl (get_journal_lv_mem env a e he)

theorem runSteps_fst (env : Env) (l : List Event) :
    (runSteps env l).1 = l.takeWhile (fun e => !env.fails e) := by
  induction l with
  | nil => simp [runSteps]
  | cons e rest ih =>
    by_cases h : env.fails e <;> simp [runSteps, h, List.takeWhile_cons, ih]

theorem runSteps_mem (env : Env) (l : List Event) (e : Event)
    (he : e ∈ (runSteps env l).1) : e ∈ l := by
  rw [runSteps_fst] at he
  exact (List.takeWhile_sublist _).subset he

theorem runSteps_all_ok (env : Env) (l : List Event)
    (h : ∀ e ∈ l, env.fails e = false) : runSteps env l = (l, Except.ok ()) := by
  induction l with
  | nil => simp [runSteps]
  | cons e rest ih =>
    have he := h e (by simp)
    have hr := ih (fun x hx => h x (by simp [hx]))
    simp [runSteps, he, hr]

theorem runSteps_fail_at (env : Env) (l₁ l₂ : List Event) (e : Event)
    (h1 : ∀ x ∈ l₁, env.fails x = false) (h2 : env.fails e = true) :
    runSteps env (l₁ ++ e :: l₂) = (l₁, Except.error (Err.stepFailed e)) := by
  induction l₁ with
  | nil => simp [runSteps, h2]
  | cons x rest ih =>
    have hx := h1 x (by simp)
    have hr := ih (fun y hy => h1 y (by simp [hy]))
    simp [runSteps, hx, hr]

theorem write_tag_pair_mem (env : Env) (jl : Target) (jd ju : String)
    (dlv : LogicalVolume) (fsid osd_id cf : String) (x : Event)
    (hx : x ∈ (write_tag_pair env jl jd ju dlv fsid osd_id cf).1) :
    x = Event.setTags jl (journalTagSet fsid osd_id cf jd ju dlv.lv_path dlv.lv_uuid) ∨
    x = Event.setTags (Target.lv dlv) (dataTagSet fsid osd_id cf jd ju dlv.lv_path dlv.lv_uuid) := by
  simp only [write_tag_pair] at hx
  split at hx
  · simp at hx
  · split at hx
    · simp at hx
      exact Or.inl hx
    · simp at hx
      rcases hx with h | h
      · exact Or.inl h
      · exact Or.inr h

theorem write_tag_pair_jfail (env : Env) (jl : Target) (jd ju : String)
    (dlv : LogicalVolume) (fsid osd_id cf : String)
    (h1 : env.fails (Event.setTags jl (journalTagSet fsid osd_id cf jd ju dlv.lv_path dlv.lv_uuid)) = true) :
    write_tag_pair env jl jd ju dlv fsid osd_id cf =
      ([], Except.error (Err.stepFailed
        (Event.setTags jl (journalTagSet fsid osd_id cf jd ju dlv.lv_path dlv.lv_uuid)))) := by
  simp [write_tag_pair, h1]

theorem write_tag_pair_dfail (env : Env) (jl : Target) (jd ju : String)
    (dlv : LogicalVolume) (fsid osd_id cf : String)
    (h1 : env.fails (Event.setTags jl (journalTagSet fsid osd_id cf jd ju dlv.lv_path dlv.lv_uuid)) = false)
    (h2 : env.fails (Event.setTags (Target.lv dlv) (dataTagSet fsid osd_id cf jd ju dlv.lv_path dlv.lv_uuid)) = true) :
    write_tag_pair env jl jd ju dlv fsid osd_id cf =
      ([Event.setTags jl (journalTagSet fsid osd_id cf jd ju dlv.lv_path dlv.lv_uuid)],
       Except.error (Err.stepFailed
        (Event.setTags (Target.lv dlv) (dataTagSet fsid osd_id cf jd ju dlv.lv_path dlv.lv_uuid)))) := by
  simp [write_tag_pair, h1, h2]

theorem write_tag_pair_ok (env : Env) (jl : Target) (jd ju : String)
    (dlv : LogicalVolume) (fsid osd_id cf : String)
    (h1 : env.fails (Event.setTags jl (journalTagSet fsid osd_id cf jd ju dlv.lv_path dlv.lv_uuid)) = false)
    (h2 : env.fails (Event.setTags (Target.lv dlv) (dataTagSet fsid osd_id cf jd ju dlv.lv_path dlv.lv_uuid)) = false) :
    write_tag_pair env jl jd ju dlv fsid osd_id cf =
      ([Event.setTags jl (journalTagSet fsid osd_id cf jd ju dlv.lv_path dlv.lv_uuid),
        Event.setTags (Target.lv dlv) (dataTagSet fsid osd_id cf jd ju dlv.lv_path dlv.lv_uuid)],
       Except.ok ()) := by
  simp [write_tag_pair, h1, h2]

theorem write_tag_pair_ok_inv (env : Env) (jl : Target) (jd ju : String)
    (dlv : LogicalVolume) (fsid osd_id cf : String)
    (h : (write_tag_pair env jl jd ju dlv fsid osd_id cf).2 = Except.ok ()) :
    env.fails (Event.setTags jl (journalTagSet fsid osd_id cf jd ju dlv.lv_path dlv.lv_uuid)) = false ∧
    env.fails (Event.setTags (Target.lv dlv) (dataTagSet fsid osd_id cf jd ju dlv.lv_path dlv.lv_uuid)) = false := by
  simp only [write_tag_pair] at h
  split at h
  · simp at h
  · split at h
    · simp at h
    · constructor
      · simp_all
      · simp_all

theorem filestoreSteps_cases (d j i f c : String) (e : Event)
    (he : e ∈ filestoreSteps d j i f c) :
    e = Event.createPath i ∨ e = Event.formatDevice d ∨ e = Event.mountOsd d i ∨
    e = Event.linkJournal j i ∨ e = Event.getMonmap i ∨ e = Event.osdMkfs i f ∨
    e = Event.writeKeyring i c := by
  simpa [filestoreSteps] using he

theorem prepare_filestore_supplied (env : Env) (d j : String) (s : List (String × String))
    (i f : String) (hi : i ≠ "") (hf : f ≠ "") :
    prepare_filestore env d j s (some i) (some f) =
      (Event.createKey ::
        (runSteps env (filestoreSteps d j i f ((s.lookup "cephx_secret").getD env.create_key))).1,
       (runSteps env (filestoreSteps d j i f ((s.lookup "cephx_secret").getD env.create_key))).2) := by
  simp [prepare_filestore, allocate_fsid_supplied env f hf,
    allocate_id_supplied env i f (json_dumps s) hi]

theorem prepare_filestore_mem (env : Env) (d j : String) (s : List (String × String))
    (oid ofs : Option String) (e : Event)
    (he : e ∈ (prepare_filestore env d j s oid ofs).1) :
    e = Event.createKey ∨ e = Event.generateUuid ∨ (∃ a b, e = Event.createId a b) ∨
      e ∈ filestoreSteps d j (allocate_id env oid (allocate_fsid env ofs).2 (json_dumps s)).2
        (allocate_fsid env ofs).2 ((s.lookup "cephx_secret").getD env.create_key) := by
  simp only [prepare_filestore, List.mem_cons, List.mem_append] at he
  rcases he with h | (h | h) | h
  · exact Or.inl h
  · exact Or.inr (Or.inl (allocate_fsid_mem env _ e h))
  · exact Or.inr (Or.inr (Or.inl ⟨_, _, allocate_id_mem env _ _ _ e h⟩))
  · exact Or.inr (Or.inr (Or.inr (runSteps_mem env _ e h)))

theorem prepare_split_none (env : Env) (args : Args) (hd : split2 args.data = none) :
    prepare env args = (prepPre env args, Except.error (Err.splitUnpackError args.data)) := by
  simp [prepare, hd]

theorem prepare_data_missing (env : Env) (args : Args) (vg lv : String)
    (hd : split2 args.data = some (vg, lv)) (hfs : args.filestore = true)
    (hlv : env.get_lv lv vg = none) :
    prepare env args = (prepPre env args ++ [Event.getLv lv vg],
      Except.error (Err.missingDataVolumeError args.data)) := by
  simp [prepare, hd, hfs, hlv]

theorem prepare_journal_missing (env : Env) (args : Args) (vg lv : String)
    (dlv : LogicalVolume) (hd : split2 args.data = some (vg, lv))
    (hfs : args.filestore = true) (hlv : env.get_lv lv vg = some dlv)
    (hpj : pyFalsy args.journal = true) :
    prepare env args = (prepPre env args ++ [Event.getLv lv vg],
      Except.error Err.missingJournalError) := by
  simp [prepare, hd, hfs, hlv, hpj]

theorem prepare_to_branch (env : Env) (args : Args) (vg lv : String)
    (dlv : LogicalVolume) (jarg : String) (hd : split2 args.data = some (vg, lv))
    (hfs : args.filestore = true) (hlv : env.get_lv lv vg = some dlv)
    (hj : args.journal = some jarg) (hjne : jarg ≠ "") :
    prepare env args = prepareFilestoreBranch env args vg lv dlv jarg := by
  have hpj : pyFalsy (some jarg) = false := by
    simp [pyFalsy, hjne]
  simp [prepare, hd, hfs, hlv, hj, hpj]

theorem prepare_bluestore_eq (env : Env) (args : Args) (vg lv : String)
    (hd : split2 args.data = some (vg, lv)) (hfs : args.filestore = false)
    (hb : args.bluestore = true) :
    prepare env args = (prepPre env args, Except.error Err.unsupportedBackendError) := by
  simp [prepare, hd, hfs, hb]

theorem branch_resolve_err (env : Env) (args : Args) (vg lv : String)
    (dlv : LogicalVolume) (jarg : String) (e : Err)
    (hres : (resolve_journal env jarg).2 = Except.error e) :
    prepareFilestoreBranch env args vg lv dlv jarg =
      (prepPre env args ++ [Event.getLv lv vg] ++ (resolve_journal env jarg).1,
       Except.error e) := by
  simp [prepareFilestoreBranch, hres]

theorem branch_tags_err (env : Env) (args : Args) (vg lv : String)
    (dlv : LogicalVolume) (jarg : String) (tgt : Target) (jdev juuid : String) (e : Err)
    (hres : (resolve_journal env jarg).2 = Except.ok (tgt, jdev, juuid))
    (ht : (write_tag_pair env tgt jdev juuid dlv (prepFsid env args) (prepOsdId env args)
      env.cluster_fsid).2 = Except.error e) :
    prepareFilestoreBranch env args vg lv dlv jarg =
      (prepPre env args ++ [Event.getLv lv vg] ++ (resolve_journal env jarg).1 ++
        (write_tag_pair env tgt jdev juuid dlv (prepFsid env args) (prepOsdId env args)
          env.cluster_fsid).1,
       Except.error e) := by
  simp [prepareFilestoreBranch, hres, ht]

theorem branch_success_shape (env : Env) (args : Args) (vg lv : String)
    (dlv : LogicalVolume) (jarg : String) (tgt : Target) (jdev juuid : String)
    (hres : (resolve_journal env jarg).2 = Except.ok (tgt, jdev, juuid))
    (ht : (write_tag_pair env tgt jdev juuid dlv (prepFsid env args) (prepOsdId env args)
      env.cluster_fsid).2 = Except.ok ()) :
    prepareFilestoreBranch env args vg lv dlv jarg =
      (prepPre env args ++ [Event.getLv lv vg] ++ (resolve_journal env jarg).1 ++
        (write_tag_pair env tgt jdev juuid dlv (prepFsid env args) (prepOsdId env args)
          env.cluster_fsid).1 ++
        (prepare_filestore env dlv.lv_path jdev (prepSecrets env)
          (some (prepOsdId env args)) (some (prepFsid env args))).1,
       (prepare_filestore env dlv.lv_path jdev (prepSecrets env)
          (some (prepOsdId env args)) (some (prepFsid env args))).2) := by
  simp [prepareFilestoreBranch, hres, ht]

theorem prepare_nobackend (env : Env) (args : Args) (vg lv : String)
    (hd : split2 args.data = some (vg, lv)) (hfs : args.filestore = false)
    (hb : args.bluestore = false) :
    prepare env args = (prepPre env args, Except.ok ()) := by
  simp [prepare, hd, hfs, hb]

theorem lookup_cons_of_ne {β : Type} (k a : String) (b : β) (t : List (String × β))
    (h : k ≠ a) : List.lookup k ((a, b) :: t) = List.lookup k t := by
  have hb : (k == a) = false := beq_eq_false_iff_ne.mpr h
  simp [List.lookup, hb]

theorem journalTagSet_head (f i cf jd ju dd du : String) :
    journalTagSet f i cf jd ju dd du =
      ("ceph.type", "journal") ::
        [("ceph.osd_fsid", f), ("ceph.osd_id", i), ("ceph.cluster_fsid", cf),
         ("ceph.journal_device", jd), ("ceph.journal_uuid", ju),
         ("ceph.data_device", dd), ("ceph.data_uuid", du)] := rfl

theorem dataTagSet_head (f i cf jd ju dd du : String) :
    dataTagSet f i cf jd ju dd du =
      ("ceph.type", "data") ::
        [("ceph.osd_fsid", f), ("ceph.osd_id", i), ("ceph.cluster_fsid", cf),
         ("ceph.journal_device", jd), ("ceph.journal_uuid", ju),
         ("ceph.data_device", dd), ("ceph.data_uuid", du)] := rfl

theorem journalTagSet_lookup_identity (f i cf jd ju dd du : String) :
    List.lookup "ceph.osd_fsid" (journalTagSet f i cf jd ju dd du) = some f ∧
    List.lookup "ceph.osd_id" (journalTagSet f i cf jd ju dd du) = some i := by
  constructor <;> simp [journalTagSet, List.lookup]

theorem dataTagSet_lookup_identity (f i cf jd ju dd du : String) :
    List.lookup "ceph.osd_fsid" (dataTagSet f i cf jd ju dd du) = some f ∧
    List.lookup "ceph.osd_id" (dataTagSet f i cf jd ju dd du) = some i := by
  constructor <;> simp [dataTagSet, List.lookup]

theorem prepare_branch_classify (env : Env) (args : Args) (vg lv : String)
    (dlv : LogicalVolume) (jarg : String) (tgt : Target) (jdev juuid : String)
    (hd : split2 args.data = some (vg, lv)) (hfs : args.filestore = true)
    (hlv : env.get_lv lv vg = some dlv) (hj : args.journal = some jarg) (hjne : jarg ≠ "")
    (hres : (resolve_journal env jarg).2 = Except.ok (tgt, jdev, juuid))
    (e : Event) (he : e ∈ (prepare env args).1) :
    e ∈ prepPre env args ∨ e = Event.getLv lv vg ∨ e ∈ (resolve_journal env jarg).1 ∨
    e = Event.setTags tgt (journalTagSet (prepFsid env args) (prepOsdId env args)
      env.cluster_fsid jdev juuid dlv.lv_path dlv.lv_uuid) ∨
    e = Event.setTags (Target.lv dlv) (dataTagSet (prepFsid env args) (prepOsdId env args)
      env.cluster_fsid jdev juuid dlv.lv_path dlv.lv_uuid) ∨
    e ∈ (prepare_filestore env dlv.lv_path jdev (prepSecrets env)
      (some (prepOsdId env args)) (some (prepFsid env args))).1 := by
  rw [prepare_to_branch env args vg lv dlv jarg hd hfs hlv hj hjne] at he
  rcases ht : (write_tag_pair env tgt jdev juuid dlv (prepFsid env args) (prepOsdId env args)
      env.cluster_fsid).2 with er | u
  · rw [branch_tags_err env args vg lv dlv jarg tgt jdev juuid er hres ht] at he
    simp only [List.mem_append, List.mem_singleton] at he
    rcases he with ((h | h) | h) | h
    · exact Or.inl h
    · exact Or.inr (Or.inl h)
    · exact Or.inr (Or.inr (Or.inl h))
    · rcases write_tag_pair_mem env tgt jdev juuid dlv _ _ _ e h with h1 | h1
      · exact Or.inr (Or.inr (Or.inr (Or.inl h1)))
      · exact Or.inr (Or.inr (Or.inr (Or.inr (Or.inl h1))))
  · cases u
    rw [branch_success_shape env args vg lv dlv jarg tgt jdev juuid hres ht] at he
    simp only [List.mem_append, List.mem_singleton] at he
    rcases he with (((h | h) | h) | h) | h
    · exact Or.inl h
    · exact Or.inr (Or.inl h)
    · exact Or.inr (Or.inr (Or.inl h))
    · rcases write_tag_pair_mem env tgt jdev juuid dlv _ _ _ e h with h1 | h1
      · exact Or.inr (Or.inr (Or.inr (Or.inl h1)))
      · exact Or.inr (Or.inr (Or.inr (Or.inr (Or.inl h1))))
    · exact Or.inr (Or.inr (Or.inr (Or.inr (Or.inr h))))


/-- Claim C5: for a journal argument naming an existing physical volume
whose uuid is unpopulated, `get_journal_pv` invokes `create_pv` exactly
once, re-queries the catalog and returns the re-queried handle, which has
a non-empty uuid under the collaborator contract that creation populates
it. -/
theorem claim_C5_pv_create_once (env : Env) (arg : String) (d d2 : PhysicalVolume)
    (hfound : env.get_pv arg = some d) (hunset : d.pv_uuid = "")
    (hnofail : env.fails (Event.createPv arg) = false)
    (hafter : env.get_pv_after arg = some d2) (hne : d2.pv_uuid ≠ "") :
    get_journal_pv env arg =
      ([Event.getPv arg, Event.createPv arg, Event.getPv arg], Except.ok (some d2)) ∧
    (get_journal_pv env arg).1.count (Event.createPv arg) = 1 ∧
    d2.pv_uuid ≠ "" := by
  have h : get_journal_pv env arg =
      ([Event.getPv arg, Event.createPv arg, Event.getPv arg], Except.ok (some d2)) := by
    simp [get_journal_pv, hfound, hunset, hnofail, hafter]
  refine ⟨h, ?_, hne⟩
  rw [h]
  simp [List.count_cons, beq_iff_eq]

/-- Witness for C5 at a concrete environment. -/
theorem claim_C5_pv_create_once_witness :
    envPv.get_pv "/dev/sdb" = some pvBlank ∧ pvBlank.pv_uuid = "" ∧
    envPv.fails (Event.createPv "/dev/sdb") = false ∧
    envPv.get_pv_after "/dev/sdb" = some pvReady ∧ pvReady.pv_uuid ≠ "" ∧
    (get_journal_pv envPv "/dev/sdb" =
      ([Event.getPv "/dev/sdb", Event.createPv "/dev/sdb", Event.getPv "/dev/sdb"],
        Except.ok (some pvReady)) ∧
     (get_journal_pv envPv "/dev/sdb").1.count (Event.createPv "/dev/sdb") = 1 ∧
     pvReady.pv_uuid ≠ "") :=
  ⟨by decide, rfl, rfl, by decide, by decide,
   claim_C5_pv_create_once envPv "/dev/sdb" pvBlank pvReady (by decide) rfl rfl
    (by decide) (by decide)⟩

/-- Claim C8: an invocation that selects the bluestore backend (and whose
`--data` argument parses as `vg/lv`) fails with the unsupported-backend
error, and its trace contains no tag write and no filesystem mutation. -/
theorem claim_C8_bluestore_rejected (env : Env) (args : Args) (vg lv : String)
    (hb : args.bluestore = true) (hnf : args.filestore = false)
    (hd : split2 args.data = some (vg, lv)) :
    (prepare env args).2 = Except.error Err.unsupportedBackendError ∧
    ∀ e ∈ (prepare env args).1, Event.isMutation e = false := by
  rw [prepare_bluestore_eq env args vg lv hd hnf hb]
  refine ⟨rfl, ?_⟩
  intro e he
  rcases prepPre_mem env args e he with h | h | ⟨a, b, h⟩ <;> subst h <;> rfl

/-- Witness for C8 at a concrete bluestore invocation. -/
theorem claim_C8_bluestore_rejected_witness :
    argsBlue.bluestore = true ∧ argsBlue.filestore = false ∧
    split2 argsBlue.data = some ("vg0", "lv0") ∧
    ((prepare baseEnv argsBlue).2 = Except.error Err.unsupportedBackendError ∧
     ∀ e ∈ (prepare baseEnv argsBlue).1, Event.isMutation e = false) :=
  ⟨rfl, rfl, by decide,
   claim_C8_bluestore_rejected baseEnv argsBlue "vg0" "lv0" rfl rfl (by decide)⟩

/-- Claim C10: when `--data` does not contain exactly one `/`, the run
fails with the unhandled split/unpack error; no catalog call, tag write or
filesystem mutation happens; secret generation has already run, and so has
identity allocation whenever the id or fsid was not supplied; and the
outcome is independent of the backend flags. -/
theorem claim_C10_malformed_data (env : Env) (args : Args)
    (hd : split2 args.data = none) :
    (prepare env args).2 = Except.error (Err.splitUnpackError args.data) ∧
    (∀ e ∈ (prepare env args).1, Event.isMutation e = false) ∧
    (∀ l v, Event.getLv l v ∉ (prepare env args).1) ∧
    (∀ n, Event.getPv n ∉ (prepare env args).1) ∧
    Event.createKey ∈ (prepare env args).1 ∧
    (pyFalsy args.osd_fsid = true → Event.generateUuid ∈ (prepare env args).1) ∧
    (pyFalsy args.osd_id = true → ∃ a b, Event.createId a b ∈ (prepare env args).1) ∧
    (∀ b₁ b₂, prepare env { args with filestore := b₁, bluestore := b₂ } =
      prepare env args) := by
  have hp := prepare_split_none env args hd
  rw [hp]
  refine ⟨rfl, ?_, ?_, ?_, ?_, ?_, ?_, ?_⟩
  · intro e he
    rcases prepPre_mem env args e he with h | h | ⟨a, b, h⟩ <;> subst h <;> rfl
  · intro l v hmem
    rcases prepPre_mem env args _ hmem with h | h | ⟨a, b, h⟩ <;> simp at h
  · intro n hmem
    rcases prepPre_mem env args _ hmem with h | h | ⟨a, b, h⟩ <;> simp at h
  · simp [prepPre]
  · intro hf
    rcases hfo : args.osd_fsid with _ | s
    · simp [prepPre, allocate_fsid, hfo]
    · have hs : s = "" := by simpa [pyFalsy, hfo] using hf
      subst hs
      simp [prepPre, allocate_fsid, hfo]
  · intro hf
    rcases hio : args.osd_id with _ | s
    · refine ⟨prepFsid env args, json_dumps (prepSecrets env), ?_⟩
      simp [prepPre, allocate_id, hio]
    · have hs : s = "" := by simpa [pyFalsy, hio] using hf
      subst hs
      refine ⟨prepFsid env args, json_dumps (prepSecrets env), ?_⟩
      simp [prepPre, allocate_id, hio]
  · intro b₁ b₂
    exact prepare_split_none env { args with filestore := b₁, bluestore := b₂ } hd

/-- Witness for C10 at a concrete malformed `--data`. -/
theorem claim_C10_malformed_data_witness :
    split2 argsBadData.data = none ∧
    ((prepare baseEnv argsBadData).2 = Except.error (Err.splitUnpackError argsBadData.data) ∧
     (∀ e ∈ (prepare baseEnv argsBadData).1, Event.isMutation e = false) ∧
     (∀ l v, Event.getLv l v ∉ (prepare baseEnv argsBadData).1) ∧
     (∀ n, Event.getPv n ∉ (prepare baseEnv argsBadData).1) ∧
     Event.createKey ∈ (prepare baseEnv argsBadData).1 ∧
     (pyFalsy argsBadData.osd_fsid = true → Event.generateUuid ∈ (prepare baseEnv argsBadData).1) ∧
     (pyFalsy argsBadData.osd_id = true →
       ∃ a b, Event.createId a b ∈ (prepare baseEnv argsBadData).1) ∧
     (∀ b₁ b₂, prepare baseEnv { argsBadData with filestore := b₁, bluestore := b₂ } =
       prepare baseEnv argsBadData)) :=
  ⟨by decide, claim_C10_malformed_data baseEnv argsBadData (by decide)⟩

/-- Claim C7 counterexample: with the data logical volume absent AND
`--journal` absent, the run fails with the data-volume error, not the
journal error — the code checks the data volume first, contrary to the
claim's stated check order. -/
theorem claim_C7_check_order_counterexample :
    argsNoJournal.journal = none ∧
    envNoLv.get_lv "lv0" "vg0" = none ∧
    (prepare envNoLv argsNoJournal).2 = Except.error (Err.missingDataVolumeError "vg0/lv0") ∧
    (prepare envNoLv argsNoJournal).2 ≠ Except.error Err.missingJournalError := by
  refine ⟨rfl, rfl, ?_, ?_⟩ <;> decide

/-- Claim C7 (amended): on the filestore path a missing data logical volume
fails the run with the data-volume error and a missing `--journal` (with
the data volume present) fails it with the journal error; the data-volume
existence check runs before the journal presence check, so when both are
absent the failure is the data-volume error. -/
theorem claim_C7_missing_checks (env : Env) (args : Args) (vg lv : String)
    (hfs : args.filestore = true) (hd : split2 args.data = some (vg, lv)) :
    (env.get_lv lv vg = none →
      (prepare env args).2 = Except.error (Err.missingDataVolumeError args.data)) ∧
    (∀ dlv, env.get_lv lv vg = some dlv → pyFalsy args.journal = true →
      (prepare env args).2 = Except.error Err.missingJournalError) := by
  constructor
  · intro hlv
    rw [prepare_data_missing env args vg lv hd hfs hlv]
  · intro dlv hlv hpj
    rw [prepare_journal_missing env args vg lv dlv hd hfs hlv hpj]

/-- Witness for the amended C7 at concrete inputs: both failure modes. -/
theorem claim_C7_missing_checks_witness :
    argsNoJournal.filestore = true ∧ split2 argsNoJournal.data = some ("vg0", "lv0") ∧
    envNoLv.get_lv "lv0" "vg0" = none ∧
    (prepare envNoLv argsNoJournal).2 = Except.error (Err.missingDataVolumeError argsNoJournal.data) ∧
    baseEnv.get_lv "lv0" "vg0" = some lvData ∧ pyFalsy argsNoJournal.journal = true ∧
    (prepare baseEnv argsNoJournal).2 = Except.error Err.missingJournalError :=
  ⟨rfl, by decide, rfl,
   (claim_C7_missing_checks envNoLv argsNoJournal "vg0" "lv0" rfl (by decide)).1 rfl,
   by decide, rfl,
   (claim_C7_missing_checks baseEnv argsNoJournal "vg0" "lv0" rfl (by decide)).2 lvData
    (by decide) rfl⟩


/-- Claim C2: a journal argument that neither parses as `vg/lv` matching an
existing logical volume nor names a physical volume known to the catalog
makes the filestore run fail with the invalid-device error; no mutating
catalog call (in particular no physical-volume creation) is made and no
tags are written to either volume. -/
theorem claim_C2_invalid_journal (env : Env) (args : Args) (vg lv : String)
    (dlv : LogicalVolume) (jarg : String)
    (hfs : args.filestore = true)
    (hd : split2 args.data = some (vg, lv))
    (hlv : env.get_lv lv vg = some dlv)
    (hj : args.journal = some jarg) (hjne : jarg ≠ "")
    (hnolv : (get_journal_lv env jarg).2 = none)
    (hnopv : env.get_pv jarg = none) :
    (prepare env args).2 = Except.error (Err.invalidDeviceError jarg) ∧
    (∀ n, Event.createPv n ∉ (prepare env args).1) ∧
    (∀ t tags, Event.setTags t tags ∉ (prepare env args).1) := by
  have hpv : get_journal_pv env jarg =
      ([Event.getPv jarg], Except.error (Err.invalidDeviceError jarg)) := by
    simp [get_journal_pv, hnopv]
  have hres : resolve_journal env jarg =
      ((get_journal_lv env jarg).1 ++ [Event.getPv jarg],
        Except.error (Err.invalidDeviceError jarg)) := by
    simp [resolve_journal, hnolv, hpv]
  have hres2 : (resolve_journal env jarg).2 = Except.error (Err.invalidDeviceError jarg) := by
    rw [hres]
  rw [prepare_to_branch env args vg lv dlv jarg hd hfs hlv hj hjne,
    branch_resolve_err env args vg lv dlv jarg _ hres2]
  refine ⟨rfl, ?_, ?_⟩
  · intro n hmem
    simp only [List.mem_append, List.mem_singleton] at hmem
    rcases hmem with (h | h) | h
    · rcases prepPre_mem env args _ h with h1 | h1 | ⟨a, b, h1⟩ <;> simp at h1
    · simp at h
    · rw [hres] at h
      simp only [List.mem_append, List.mem_singleton] at h
      rcases h with h1 | h1
      · rcases get_journal_lv_mem env jarg _ h1 with ⟨l2, v2, h2⟩
        simp at h2
      · simp at h1
  · intro t tags hmem
    simp only [List.mem_append, List.mem_singleton] at hmem
    rcases hmem with (h | h) | h
    · rcases prepPre_mem env args _ h with h1 | h1 | ⟨a, b, h1⟩ <;> simp at h1
    · simp at h
    · rw [hres] at h
      simp only [List.mem_append, List.mem_singleton] at h
      rcases h with h1 | h1
      · rcases get_journal_lv_mem env jarg _ h1 with ⟨l2, v2, h2⟩
        simp at h2
      · simp at h1

/-- Witness for C2: data `vg0/lv0` exists, journal `/dev/sdb` unknown. -/
theorem claim_C2_invalid_journal_witness :
    argsPlainJournal.filestore = true ∧
    split2 argsPlainJournal.data = some ("vg0", "lv0") ∧
    baseEnv.get_lv "lv0" "vg0" = some lvData ∧
    argsPlainJournal.journal = some "/dev/sdb" ∧ ("/dev/sdb" : String) ≠ "" ∧
    (get_journal_lv baseEnv "/dev/sdb").2 = none ∧
    baseEnv.get_pv "/dev/sdb" = none ∧
    ((prepare baseEnv argsPlainJournal).2 = Except.error (Err.invalidDeviceError "/dev/sdb") ∧
     (∀ n, Event.createPv n ∉ (prepare baseEnv argsPlainJournal).1) ∧
     (∀ t tags, Event.setTags t tags ∉ (prepare baseEnv argsPlainJournal).1)) :=
  ⟨rfl, by decide, by decide, rfl, by decide, by decide, rfl,
   claim_C2_invalid_journal baseEnv argsPlainJournal "vg0" "lv0" lvData "/dev/sdb"
    rfl (by decide) (by decide) rfl (by decide) (by decide) rfl⟩

/-- Claim C4: a journal argument that parses as `vg/lv` and matches an
existing logical volume resolves to exactly that logical volume handle, and
the run performs no physical-volume lookup and no physical-volume
creation. -/
theorem claim_C4_journal_lv_resolution (env : Env) (args : Args) (vg lv : String)
    (dlv jlv : LogicalVolume) (jarg jvg jlvn : String)
    (hfs : args.filestore = true)
    (hd : split2 args.data = some (vg, lv))
    (hlv : env.get_lv lv vg = some dlv)
    (hj : args.journal = some jarg) (hjne : jarg ≠ "")
    (hsplit : split2 jarg = some (jvg, jlvn))
    (hfound : env.get_lv jlvn jvg = some jlv) :
    resolve_journal env jarg =
      ([Event.getLv jlvn jvg], Except.ok (Target.lv jlv, jlv.lv_path, jlv.lv_uuid)) ∧
    ∀ e ∈ (prepare env args).1, Event.isPvCall e = false := by
  have hglv : get_journal_lv env jarg = ([Event.getLv jlvn jvg], some jlv) := by
    simp [get_journal_lv, hsplit, hfound]
  have hres : resolve_journal env jarg =
      ([Event.getLv jlvn jvg], Except.ok (Target.lv jlv, jlv.lv_path, jlv.lv_uuid)) := by
    simp [resolve_journal, hglv]
  refine ⟨hres, ?_⟩
  intro e he
  rcases prepare_branch_classify env args vg lv dlv jarg (Target.lv jlv) jlv.lv_path
      jlv.lv_uuid hd hfs hlv hj hjne (by rw [hres]) e he with h | h | h | h | h | h
  · rcases prepPre_mem env args e h with h1 | h1 | ⟨a, b, h1⟩ <;> subst h1 <;> rfl
  · subst h
    rfl
  · rw [hres] at h
    simp only [List.mem_singleton] at h
    subst h
    rfl
  · subst h
    rfl
  · subst h
    rfl
  · rcases prepare_filestore_mem env _ _ _ _ _ e h with h1 | h1 | ⟨a, b, h1⟩ | h1
    · subst h1
      rfl
    · subst h1
      rfl
    · subst h1
      rfl
    · rcases filestoreSteps_cases _ _ _ _ _ e h1 with h2 | h2 | h2 | h2 | h2 | h2 | h2 <;>
        subst h2 <;> rfl

/-- Witness for C4 at a concrete run with journal `vg0/lv1`. -/
theorem claim_C4_journal_lv_resolution_witness :
    argsOk.filestore = true ∧ split2 argsOk.data = some ("vg0", "lv0") ∧
    baseEnv.get_lv "lv0" "vg0" = some lvData ∧
    argsOk.journal = some "vg0/lv1" ∧ ("vg0/lv1" : String) ≠ "" ∧
    split2 "vg0/lv1" = some ("vg0", "lv1") ∧
    baseEnv.get_lv "lv1" "vg0" = some lvJournal ∧
    (resolve_journal baseEnv "vg0/lv1" =
      ([Event.getLv "lv1" "vg0"],
        Except.ok (Target.lv lvJournal, lvJournal.lv_path, lvJournal.lv_uuid)) ∧
     ∀ e ∈ (prepare baseEnv argsOk).1, Event.isPvCall e = false) :=
  ⟨rfl, by decide, by decide, rfl, by decide, by decide, by decide,
   claim_C4_journal_lv_resolution baseEnv argsOk "vg0" "lv0" lvData lvJournal "vg0/lv1"
    "vg0" "lv1" rfl (by decide) (by decide) rfl (by decide) (by decide) (by decide)⟩

/-- Claim C6: after tagging, the filestore side effects run in exactly the
source order — create the working directory, format the data device, mount
it, symlink the journal, fetch the monmap, run the OSD mkfs, write the
keyring — and a failing step prevents every later step from running. -/
theorem claim_C6_step_order (env : Env) (device journal : String)
    (secrets : List (String × String)) (i f : String)
    (hi : i ≠ "") (hf : f ≠ "") :
    (filestoreSteps device journal i f ((secrets.lookup "cephx_secret").getD env.create_key) =
      [Event.createPath i, Event.formatDevice device, Event.mountOsd device i,
       Event.linkJournal journal i, Event.getMonmap i, Event.osdMkfs i f,
       Event.writeKeyring i ((secrets.lookup "cephx_secret").getD env.create_key)]) ∧
    ((∀ e ∈ filestoreSteps device journal i f
        ((secrets.lookup "cephx_secret").getD env.create_key), env.fails e = false) →
      prepare_filestore env device journal secrets (some i) (some f) =
        (Event.createKey :: filestoreSteps device journal i f
          ((secrets.lookup "cephx_secret").getD env.create_key), Except.ok ())) ∧
    (∀ l₁ e l₂,
      filestoreSteps device journal i f ((secrets.lookup "cephx_secret").getD env.create_key) =
        l₁ ++ e :: l₂ →
      (∀ x ∈ l₁, env.fails x = false) → env.fails e = true →
      prepare_filestore env device journal secrets (some i) (some f) =
        (Event.createKey :: l₁, Except.error (Err.stepFailed e)) ∧
      ∀ x ∈ e :: l₂, x ∉ Event.createKey :: l₁) := by
  refine ⟨rfl, ?_, ?_⟩
  · intro hok
    rw [prepare_filestore_supplied env device journal secrets i f hi hf,
      runSteps_all_ok env _ hok]
  · intro l₁ e l₂ hdec h1 h2
    constructor
    · rw [prepare_filestore_supplied env device journal secrets i f hi hf, hdec,
        runSteps_fail_at env l₁ l₂ e h1 h2]
    · have hnodup : (filestoreSteps device journal i f
          ((secrets.lookup "cephx_secret").getD env.create_key)).Nodup := by
        simp [filestoreSteps]
      rw [hdec] at hnodup
      have hdisj := (List.nodup_append.mp hnodup).2.2
      have hck : Event.createKey ∉ l₁ ++ e :: l₂ := by
        rw [← hdec]
        simp [filestoreSteps]
      intro x hx hmem
      rcases List.mem_cons.mp hmem with h3 | h3
      · subst h3
        exact hck (List.mem_append_right l₁ hx)
      · exact hdisj h3 hx

/-- Witness for C6: the mount step fails, the first two steps ran, the
mount and all later steps did not. -/
theorem claim_C6_step_order_witness :
    ("1" : String) ≠ "" ∧ ("F" : String) ≠ "" ∧
    (prepare_filestore envFailMount "/dev/vg0/lv0" "/dev/vg0/lv1" [("cephx_secret", "KEY")]
        (some "1") (some "F") =
      (Event.createKey :: [Event.createPath "1", Event.formatDevice "/dev/vg0/lv0"],
        Except.error (Err.stepFailed (Event.mountOsd "/dev/vg0/lv0" "1"))) ∧
     ∀ x ∈ Event.mountOsd "/dev/vg0/lv0" "1" ::
        [Event.linkJournal "/dev/vg0/lv1" "1", Event.getMonmap "1", Event.osdMkfs "1" "F",
         Event.writeKeyring "1" "KEY"],
       x ∉ Event.createKey :: [Event.createPath "1", Event.formatDevice "/dev/vg0/lv0"]) :=
  ⟨by decide, by decide,
   (claim_C6_step_order envFailMount "/dev/vg0/lv0" "/dev/vg0/lv1" [("cephx_secret", "KEY")]
      "1" "F" (by decide) (by decide)).2.2
    [Event.createPath "1", Event.formatDevice "/dev/vg0/lv0"]
    (Event.mountOsd "/dev/vg0/lv0" "1")
    [Event.linkJournal "/dev/vg0/lv1" "1", Event.getMonmap "1", Event.osdMkfs "1" "F",
     Event.writeKeyring "1" "KEY"]
    (by decide) (by decide) (by decide)⟩


/-- Claim C3: when the caller supplies both an osd id and an osd fsid
(non-empty), every collaborator call of the run uses exactly that identity
— in the tag sets and in each preparation step — and neither the UUID
generator nor the external numeric-id allocator is ever invoked. -/
theorem claim_C3_supplied_identity (env : Env) (args : Args) (i f : String)
    (hid : args.osd_id = some i) (hine : i ≠ "")
    (hfsid : args.osd_fsid = some f) (hfne : f ≠ "") :
    ∀ e ∈ (prepare env args).1, identityOk i f e := by
  have hF : prepFsid env args = f := by
    simp [prepFsid, hfsid, allocate_fsid_supplied env f hfne]
  have hI : prepOsdId env args = i := by
    simp [prepOsdId, hid,
      allocate_id_supplied env i (prepFsid env args) (json_dumps (prepSecrets env)) hine]
  have hpre : prepPre env args = [Event.createKey] := by
    simp [prepPre, hfsid, hid, allocate_fsid_supplied env f hfne,
      allocate_id_supplied env i (prepFsid env args) (json_dumps (prepSecrets env)) hine]
  have hFne : prepFsid env args ≠ "" := by
    rw [hF]
    exact hfne
  have hIne : prepOsdId env args ≠ "" := by
    rw [hI]
    exact hine
  intro e he
  rcases hd : split2 args.data with _ | ⟨vg, lv⟩
  · rw [prepare_split_none env args hd, hpre] at he
    simp only [List.mem_singleton] at he
    subst he
    trivial
  · rcases hfs : args.filestore with _ | _
    · rcases hb : args.bluestore with _ | _
      · rw [prepare_nobackend env args vg lv hd hfs hb, hpre] at he
        simp only [List.mem_singleton] at he
        subst he
        trivial
      · rw [prepare_bluestore_eq env args vg lv hd hfs hb, hpre] at he
        simp only [List.mem_singleton] at he
        subst he
        trivial
    · rcases hlv : env.get_lv lv vg with _ | dlv
      · rw [prepare_data_missing env args vg lv hd hfs hlv, hpre] at he
        simp only [List.mem_append, List.mem_singleton] at he
        rcases he with h | h <;> subst h <;> trivial
      · rcases hj : args.journal with _ | jarg
        · rw [prepare_journal_missing env args vg lv dlv hd hfs hlv
            (by simp [pyFalsy, hj]), hpre] at he
          simp only [List.mem_append, List.mem_singleton] at he
          rcases he with h | h <;> subst h <;> trivial
        · by_cases hje : jarg = ""
          · rw [prepare_journal_missing env args vg lv dlv hd hfs hlv
              (by simp [pyFalsy, hj, hje]), hpre] at he
            simp only [List.mem_append, List.mem_singleton] at he
            rcases he with h | h <;> subst h <;> trivial
          · rcases hres : (resolve_journal env jarg).2 with er | trip
            · rw [prepare_to_branch env args vg lv dlv jarg hd hfs hlv hj hje,
                branch_resolve_err env args vg lv dlv jarg er hres, hpre] at he
              simp only [List.mem_append, List.mem_singleton] at he
              rcases he with (h | h) | h
              · subst h
                trivial
              · subst h
                trivial
              · rcases resolve_journal_mem env jarg e h with ⟨l2, v2, h1⟩ | ⟨n, h1⟩ | ⟨n, h1⟩ <;>
                  subst h1 <;> trivial
            · obtain ⟨tgt, jdev, juuid⟩ := trip
              rcases prepare_branch_classify env args vg lv dlv jarg tgt jdev juuid
                  hd hfs hlv hj hje hres e he with h | h | h | h | h | h
              · rw [hpre] at h
                simp only [List.mem_singleton] at h
                subst h
                trivial
              · subst h
                trivial
              · rcases resolve_journal_mem env jarg e h with ⟨l2, v2, h1⟩ | ⟨n, h1⟩ | ⟨n, h1⟩ <;>
                  subst h1 <;> trivial
              · subst h
                rw [hF, hI]
                exact journalTagSet_lookup_identity f i env.cluster_fsid jdev juuid
                  dlv.lv_path dlv.lv_uuid
              · subst h
                rw [hF, hI]
                exact dataTagSet_lookup_identity f i env.cluster_fsid jdev juuid
                  dlv.lv_path dlv.lv_uuid
              · rw [prepare_filestore_supplied env dlv.lv_path jdev (prepSecrets env)
                  (prepOsdId env args) (prepFsid env args) hIne hFne] at h
                simp only [List.mem_cons] at h
                rcases h with h1 | h1
                · subst h1
                  trivial
                · have h2 := runSteps_mem env _ e h1
                  rcases filestoreSteps_cases _ _ _ _ _ e h2 with
                      h3 | h3 | h3 | h3 | h3 | h3 | h3 <;> subst h3
                  · exact hI
                  · trivial
                  · exact hI
                  · exact hI
                  · exact hI
                  · exact ⟨hI, hF⟩
                  · exact hI

/-- Witness for C3 at a concrete fully supplied run. -/
theorem claim_C3_supplied_identity_witness :
    argsOk.osd_id = some "1" ∧ ("1" : String) ≠ "" ∧
    argsOk.osd_fsid = some "F" ∧ ("F" : String) ≠ "" ∧
    ∀ e ∈ (prepare baseEnv argsOk).1, identityOk "1" "F" e :=
  ⟨rfl, by decide, rfl, by decide,
   claim_C3_supplied_identity baseEnv argsOk "1" "F" rfl (by decide) rfl (by decide)⟩


/-- Claim C1: after a successful filestore run, the journal volume's tag
set and the data volume's tag set are identical except for the `ceph.type`
entry — `journal` on the journal volume, `data` on the data volume — and
hence agree on every other key (`ceph.osd_fsid`, `ceph.osd_id`,
`ceph.cluster_fsid`, `ceph.journal_device`, `ceph.journal_uuid`,
`ceph.data_device`, `ceph.data_uuid`). -/
theorem claim_C1_tag_pair_agrees (env : Env) (args : Args)
    (hfs : args.filestore = true)
    (hok : (prepare env args).2 = Except.ok ()) :
    ∃ (journal_lvm : Target) (data_lv : LogicalVolume) (rest : List (String × String)),
      Event.setTags journal_lvm (("ceph.type", "journal") :: rest) ∈ (prepare env args).1 ∧
      Event.setTags (Target.lv data_lv) (("ceph.type", "data") :: rest) ∈ (prepare env args).1 ∧
      (∀ k : String, k ≠ "ceph.type" →
        List.lookup k (("ceph.type", "journal") :: rest) =
          List.lookup k (("ceph.type", "data") :: rest)) ∧
      List.lookup "ceph.type" (("ceph.type", "journal") :: rest) = some "journal" ∧
      List.lookup "ceph.type" (("ceph.type", "data") :: rest) = some "data" := by
  rcases hd : split2 args.data with _ | ⟨vg, lv⟩
  · rw [prepare_split_none env args hd] at hok
    simp at hok
  · rcases hlv : env.get_lv lv vg with _ | dlv
    · rw [prepare_data_missing env args vg lv hd hfs hlv] at hok
      simp at hok
    · rcases hj : args.journal with _ | jarg
      · rw [prepare_journal_missing env args vg lv dlv hd hfs hlv
          (by simp [pyFalsy, hj])] at hok
        simp at hok
      · by_cases hje : jarg = ""
        · rw [prepare_journal_missing env args vg lv dlv hd hfs hlv
            (by simp [pyFalsy, hj, hje])] at hok
          simp at hok
        · rcases hres : (resolve_journal env jarg).2 with er | trip
          · rw [prepare_to_branch env args vg lv dlv jarg hd hfs hlv hj hje,
              branch_resolve_err env args vg lv dlv jarg er hres] at hok
            simp at hok
          · obtain ⟨tgt, jdev, juuid⟩ := trip
            rcases ht : (write_tag_pair env tgt jdev juuid dlv (prepFsid env args)
                (prepOsdId env args) env.cluster_fsid).2 with er2 | u
            · rw [prepare_to_branch env args vg lv dlv jarg hd hfs hlv hj hje,
                branch_tags_err env args vg lv dlv jarg tgt jdev juuid er2 hres ht] at hok
              simp at hok
            · cases u
              have hwtp := write_tag_pair_ok_inv env tgt jdev juuid dlv (prepFsid env args)
                (prepOsdId env args) env.cluster_fsid ht
              have hwtp1 : (write_tag_pair env tgt jdev juuid dlv (prepFsid env args)
                  (prepOsdId env args) env.cluster_fsid).1 =
                  [Event.setTags tgt (journalTagSet (prepFsid env args) (prepOsdId env args)
                    env.cluster_fsid jdev juuid dlv.lv_path dlv.lv_uuid),
                   Event.setTags (Target.lv dlv) (dataTagSet (prepFsid env args)
                    (prepOsdId env args) env.cluster_fsid jdev juuid dlv.lv_path dlv.lv_uuid)] := by
                rw [write_tag_pair_ok env tgt jdev juuid dlv (prepFsid env args)
                  (prepOsdId env args) env.cluster_fsid hwtp.1 hwtp.2]
              refine ⟨tgt, dlv,
                [("ceph.osd_fsid", prepFsid env args), ("ceph.osd_id", prepOsdId env args),
                 ("ceph.cluster_fsid", env.cluster_fsid), ("ceph.journal_device", jdev),
                 ("ceph.journal_uuid", juuid), ("ceph.data_device", dlv.lv_path),
                 ("ceph.data_uuid", dlv.lv_uuid)], ?_, ?_, ?_, ?_, ?_⟩
              · rw [prepare_to_branch env args vg lv dlv jarg hd hfs hlv hj hje,
                  branch_success_shape env args vg lv dlv jarg tgt jdev juuid hres ht, hwtp1]
                simp [journalTagSet]
              · rw [prepare_to_branch env args vg lv dlv jarg hd hfs hlv hj hje,
                  branch_success_shape env args vg lv dlv jarg tgt jdev juuid hres ht, hwtp1]
                simp [dataTagSet]
              · intro k hk
                rw [lookup_cons_of_ne k "ceph.type" "journal" _ hk,
                  lookup_cons_of_ne k "ceph.type" "data" _ hk]
              · simp [List.lookup]
              · simp [List.lookup]

/-- Witness for C1 at a concrete successful run. -/
theorem claim_C1_tag_pair_agrees_witness :
    argsOk.filestore = true ∧ (prepare baseEnv argsOk).2 = Except.ok () ∧
    (∃ (journal_lvm : Target) (data_lv : LogicalVolume) (rest : List (String × String)),
      Event.setTags journal_lvm (("ceph.type", "journal") :: rest) ∈ (prepare baseEnv argsOk).1 ∧
      Event.setTags (Target.lv data_lv) (("ceph.type", "data") :: rest) ∈ (prepare baseEnv argsOk).1 ∧
      (∀ k : String, k ≠ "ceph.type" →
        List.lookup k (("ceph.type", "journal") :: rest) =
          List.lookup k (("ceph.type", "data") :: rest)) ∧
      List.lookup "ceph.type" (("ceph.type", "journal") :: rest) = some "journal" ∧
      List.lookup "ceph.type" (("ceph.type", "data") :: rest) = some "data") :=
  ⟨rfl, by decide, claim_C1_tag_pair_agrees baseEnv argsOk rfl (by decide)⟩

/-- Claim C9: in a filestore run that reaches tagging, any tag write is
preceded by the journal tag write — the journal volume's tag set is written
first — and if the second (data) tag write fails, the run aborts with that
failure while the journal volume already carries the complete new tag set
and the data volume received no tag write at all. -/
theorem claim_C9_journal_tags_first (env : Env) (args : Args) (vg lv : String)
    (dlv : LogicalVolume) (jarg : String) (tgt : Target) (jdev juuid : String)
    (hfs : args.filestore = true)
    (hd : split2 args.data = some (vg, lv))
    (hlv : env.get_lv lv vg = some dlv)
    (hj : args.journal = some jarg) (hjne : jarg ≠ "")
    (hres : (resolve_journal env jarg).2 = Except.ok (tgt, jdev, juuid)) :
    (∀ t tags, Event.setTags t tags ∈ (prepare env args).1 →
      Event.setTags tgt (journalTagSet (prepFsid env args) (prepOsdId env args)
        env.cluster_fsid jdev juuid dlv.lv_path dlv.lv_uuid) ∈ (prepare env args).1) ∧
    (env.fails (Event.setTags tgt (journalTagSet (prepFsid env args) (prepOsdId env args)
        env.cluster_fsid jdev juuid dlv.lv_path dlv.lv_uuid)) = false →
     env.fails (Event.setTags (Target.lv dlv) (dataTagSet (prepFsid env args)
        (prepOsdId env args) env.cluster_fsid jdev juuid dlv.lv_path dlv.lv_uuid)) = true →
      (prepare env args).2 = Except.error (Err.stepFailed (Event.setTags (Target.lv dlv)
        (dataTagSet (prepFsid env args) (prepOsdId env args) env.cluster_fsid jdev juuid
          dlv.lv_path dlv.lv_uuid))) ∧
      Event.setTags tgt (journalTagSet (prepFsid env args) (prepOsdId env args)
        env.cluster_fsid jdev juuid dlv.lv_path dlv.lv_uuid) ∈ (prepare env args).1 ∧
      (Target.lv dlv ≠ tgt →
        ∀ tags, Event.setTags (Target.lv dlv) tags ∉ (prepare env args).1)) := by
  rw [prepare_to_branch env args vg lv dlv jarg hd hfs hlv hj hjne]
  constructor
  · intro t tags hmem
    rcases h1 : env.fails (Event.setTags tgt (journalTagSet (prepFsid env args)
        (prepOsdId env args) env.cluster_fsid jdev juuid dlv.lv_path dlv.lv_uuid)) with _ | _
    · rcases h2 : env.fails (Event.setTags (Target.lv dlv) (dataTagSet (prepFsid env args)
          (prepOsdId env args) env.cluster_fsid jdev juuid dlv.lv_path dlv.lv_uuid)) with _ | _
      · have hw := write_tag_pair_ok env tgt jdev juuid dlv (prepFsid env args)
          (prepOsdId env args) env.cluster_fsid h1 h2
        rw [branch_success_shape env args vg lv dlv jarg tgt jdev juuid hres (by rw [hw])]
        have hw1 : (write_tag_pair env tgt jdev juuid dlv (prepFsid env args)
            (prepOsdId env args) env.cluster_fsid).1 = _ := congrArg Prod.fst hw
        rw [hw1]
        simp
      · have hw := write_tag_pair_dfail env tgt jdev juuid dlv (prepFsid env args)
          (prepOsdId env args) env.cluster_fsid h1 h2
        rw [branch_tags_err env args vg lv dlv jarg tgt jdev juuid _ hres (by rw [hw])]
        have hw1 : (write_tag_pair env tgt jdev juuid dlv (prepFsid env args)
            (prepOsdId env args) env.cluster_fsid).1 = _ := congrArg Prod.fst hw
        rw [hw1]
        simp
    · have hw := write_tag_pair_jfail env tgt jdev juuid dlv (prepFsid env args)
        (prepOsdId env args) env.cluster_fsid h1
      rw [branch_tags_err env args vg lv dlv jarg tgt jdev juuid _ hres (by rw [hw])] at hmem
      have hw1 : (write_tag_pair env tgt jdev juuid dlv (prepFsid env args)
          (prepOsdId env args) env.cluster_fsid).1 = ([] : List Event) := congrArg Prod.fst hw
      rw [hw1] at hmem
      simp only [List.append_nil, List.mem_append, List.mem_singleton] at hmem
      exfalso
      rcases hmem with (h | h) | h
      · rcases prepPre_mem env args _ h with h3 | h3 | ⟨a, b, h3⟩ <;> simp at h3
      · simp at h
      · rcases resolve_journal_mem env jarg _ h with ⟨l2, v2, h3⟩ | ⟨n, h3⟩ | ⟨n, h3⟩ <;>
          simp at h3
  · intro h1 h2
    have hw := write_tag_pair_dfail env tgt jdev juuid dlv (prepFsid env args)
      (prepOsdId env args) env.cluster_fsid h1 h2
    have hw2 : (write_tag_pair env tgt jdev juuid dlv (prepFsid env args)
        (prepOsdId env args) env.cluster_fsid).2 = _ := congrArg Prod.snd hw
    rw [branch_tags_err env args vg lv dlv jarg tgt jdev juuid _ hres hw2]
    have hw1 : (write_tag_pair env tgt jdev juuid dlv (prepFsid env args)
        (prepOsdId env args) env.cluster_fsid).1 = _ := congrArg Prod.fst hw
    refine ⟨rfl, ?_, ?_⟩
    · rw [hw1]
      simp
    · intro hne tags hmem
      rw [hw1] at hmem
      simp only [List.mem_append, List.mem_singleton] at hmem
      rcases hmem with ((h | h) | h) | h
      · rcases prepPre_mem env args _ h with h3 | h3 | ⟨a, b, h3⟩ <;> simp at h3
      · simp at h
      · rcases resolve_journal_mem env jarg _ h with ⟨l2, v2, h3⟩ | ⟨n, h3⟩ | ⟨n, h3⟩ <;>
          simp at h3
      · have : Target.lv dlv = tgt := by
          injection h
        exact hne this


/-- Witness for C9: the data tag write fails at a concrete run; the
journal volume is already fully tagged and the data volume is not. -/
theorem claim_C9_journal_tags_first_witness :
    argsOk.filestore = true ∧ split2 argsOk.data = some ("vg0", "lv0") ∧
    envFailDataTags.get_lv "lv0" "vg0" = some lvData ∧
    argsOk.journal = some "vg0/lv1" ∧ ("vg0/lv1" : String) ≠ "" ∧
    (resolve_journal envFailDataTags "vg0/lv1").2 =
      Except.ok (Target.lv lvJournal, lvJournal.lv_path, lvJournal.lv_uuid) ∧
    ((∀ t tags, Event.setTags t tags ∈ (prepare envFailDataTags argsOk).1 →
      Event.setTags (Target.lv lvJournal) (journalTagSet (prepFsid envFailDataTags argsOk) (prepOsdId envFailDataTags argsOk)
        envFailDataTags.cluster_fsid lvJournal.lv_path lvJournal.lv_uuid lvData.lv_path
        lvData.lv_uuid) ∈ (prepare envFailDataTags argsOk).1) ∧
     (envFailDataTags.fails (Event.setTags (Target.lv lvJournal) (journalTagSet (prepFsid envFailDataTags argsOk) (prepOsdId envFailDataTags argsOk)
        envFailDataTags.cluster_fsid lvJournal.lv_path lvJournal.lv_uuid lvData.lv_path
        lvData.lv_uuid)) = false →
      envFailDataTags.fails (Event.setTags (Target.lv lvData) (dataTagSet (prepFsid envFailDataTags argsOk) (prepOsdId envFailDataTags argsOk)
        envFailDataTags.cluster_fsid lvJournal.lv_path lvJournal.lv_uuid lvData.lv_path
        lvData.lv_uuid)) = true →
      (prepare envFailDataTags argsOk).2 =
        Except.error (Err.stepFailed (Event.setTags (Target.lv lvData) (dataTagSet (prepFsid envFailDataTags argsOk) (prepOsdId envFailDataTags argsOk)
        envFailDataTags.cluster_fsid lvJournal.lv_path lvJournal.lv_uuid lvData.lv_path
        lvData.lv_uuid))) ∧
      Event.setTags (Target.lv lvJournal) (journalTagSet (prepFsid envFailDataTags argsOk) (prepOsdId envFailDataTags argsOk)
        envFailDataTags.cluster_fsid lvJournal.lv_path lvJournal.lv_uuid lvData.lv_path
        lvData.lv_uuid) ∈ (prepare envFailDataTags argsOk).1 ∧
      (Target.lv lvData ≠ Target.lv lvJournal →
        ∀ tags, Event.setTags (Target.lv lvData) tags ∉ (prepare envFailDataTags argsOk).1))) :=
  ⟨rfl, by decide, by decide, rfl, by decide, by decide,
   claim_C9_journal_tags_first envFailDataTags argsOk "vg0" "lv0" lvData "vg0/lv1"
    (Target.lv lvJournal) lvJournal.lv_path lvJournal.lv_uuid rfl (by decide) (by decide)
    rfl (by decide) (by decide)⟩

end CephVolume
